import Mathlib

/-!
# HappyPlanes: the `Game` coordinator (`src/complete/Game.js`)

A shallow embedding of the `Game` class: its fields become a record, each
method becomes a function on that record, and every call the class makes on a
collaborator (plane, obstacles, sound effects, clock, renderer, timer queue)
is appended to an effect log carried in the record.

Conventions of the embedding.

* Counters (`score`, `bonusScore`, `lives`) are JavaScript numbers that only
  ever hold `undefined` (before the first `startGame`), `NaN` (arithmetic on
  `undefined`) or an integer; `JSNum` has exactly these three shapes.  The
  integer case is an unbounded `Int`: it stands for the doubles that hold an
  integer exactly (magnitude below `2^53`).
* Coordinates and clock readings are numbers of an arbitrary type `F` that
  only has to provide `0`, `6` and `+`; nothing is assumed about `+`, so the
  results hold for any reading of JavaScript addition.
* The record holds what `Game` itself owns and the page elements it writes.
  State owned by a collaborator is not copied into it: a write to it is an
  effect (`plane.visible = false`), a read of it is an argument.
* What the collaborators do during `render` is supplied per frame by a
  `Frame` value: the readiness flags they expose, the clock readings, the
  position the plane has once `plane.update` returns, and the callbacks
  (`incScore` / `decLives`) that `obstacles.update` makes into the game.
  `plane.update` is taken to make no call into the game and
  `obstacles.update` not to move the plane.
* `setTimeout(gameOver, 1200)` pushes the delay on a queue of pending
  timers; `Game.timerFires` is the later moment at which the oldest pending
  timer runs `gameOver`.  JavaScript runs each call to completion, so a timer
  never fires in the middle of a method.
-/

namespace HappyPlanes

/-! ## Values -/

/-- A JavaScript number as held by the counters of `Game`. -/
inductive JSNum where
  | undefined
  | nan
  | int (v : Int)
  deriving DecidableEq, Repr

namespace JSNum

/-- The increment `x++` on a field: the value stored back. -/
def inc : JSNum → JSNum
  | int v => int (v + 1)
  | _ => nan

/-- The decrement `x--` on a field: the value stored back. -/
def dec : JSNum → JSNum
  | int v => int (v - 1)
  | _ => nan

/-- The numeric `a + b`. -/
def add : JSNum → JSNum → JSNum
  | int a, int b => int (a + b)
  | _, _ => nan

/-- The test `x % 3 == 0`; the remainder of JavaScript truncates towards zero. -/
def mod3IsZero : JSNum → Bool
  | int v => v.tmod 3 == 0
  | _ => false

/-- The test `x == 0`. -/
def isZero : JSNum → Bool
  | int v => v == 0
  | _ => false

end JSNum

/-- A `THREE.Vector3`. -/
structure Vec3 (F : Type) where
  x : F
  y : F
  z : F
  deriving DecidableEq, Repr

/-- The value of a `style.display` property; `initial` is whatever the page
gives the element before any script writes to it. -/
inductive Display where
  | initial
  | none
  | block
  deriving DecidableEq, Repr

/-- The sound effects loaded by `loadSFX`. -/
inductive Sound where
  | explosion
  | engine
  | gliss
  | gameover
  | bonus
  deriving DecidableEq, Repr

/-- A call made on a collaborator, in the order the calls happen. -/
inductive Effect (F : Type) where
  | sfxPlay (name : Sound)
  | sfxStopAll
  | planeReset
  | obstaclesReset
  | planeSetVisible (visible : Bool)
  | setTimeoutGameOver (delay : Nat)
  | clockGetDelta
  | clockGetElapsedTime
  | planeUpdate (time : F)
  | obstaclesUpdate (position : Vec3 F) (dt : F)
  | cameraLookAt (target : Vec3 F)
  | rendererRender
  deriving DecidableEq, Repr

/-- The fields of a `Game` object, the page elements it writes, the pending
timers and the effect log.  An `innerHTML` field is `none` until a method has
written a number into the element. -/
structure Game (F : Type) where
  score : JSNum
  bonusScore : JSNum
  lives : JSNum
  active : Bool
  loading : Bool
  spaceKey : Bool
  loadingBarVisible : Bool
  cameraControllerPosition : Vec3 F
  cameraTarget : Vec3 F
  gameoverDisplay : Display
  instructionsDisplay : Display
  playBtnDisplay : Display
  scoreHTML : Option JSNum
  livesHTML : Option JSNum
  timers : List Nat
  log : List (Effect F)
  deriving DecidableEq, Repr

/-- A callback that `obstacles.update` makes into the game. -/
inductive Callback where
  | incScore
  | decLives
  deriving DecidableEq, Repr

/-- What the collaborators contribute to one call of `render`. -/
structure Frame (F : Type) where
  planeReady : Bool
  obstaclesReady : Bool
  delta : F
  elapsed : F
  planePosition : Vec3 F
  callbacks : List Callback
  deriving DecidableEq, Repr

namespace Game

variable {F : Type}

/-- Record one call on a collaborator. -/
def emit (g : Game F) (e : Effect F) : Game F :=
  { g with log := g.log ++ [e] }

/-! ## Session -/

/-- The method `startGame()`. -/
def startGame (g : Game F) : Game F :=
  let g := { g with gameoverDisplay := Display.none }
  let g := { g with instructionsDisplay := Display.none }
  let g := { g with playBtnDisplay := Display.none }
  let g := { g with score := JSNum.int 0 }
  let g := { g with bonusScore := JSNum.int 0 }
  let g := { g with lives := JSNum.int 3 }
  let g := { g with scoreHTML := some g.score }
  let g := { g with livesHTML := some g.lives }
  let g := g.emit Effect.planeReset
  let g := g.emit Effect.obstaclesReset
  let g := { g with active := true }
  g.emit (Effect.sfxPlay Sound.engine)

/-- The method `gameOver()`. -/
def gameOver (g : Game F) : Game F :=
  let g := { g with active := false }
  let g := { g with gameoverDisplay := Display.block }
  let g := { g with playBtnDisplay := Display.block }
  let g := g.emit (Effect.planeSetVisible false)
  let g := g.emit Effect.sfxStopAll
  g.emit (Effect.sfxPlay Sound.gameover)

/-- The method `incScore()`. -/
def incScore (g : Game F) : Game F :=
  let g := { g with score := g.score.inc }
  let g :=
    if g.score.mod3IsZero then
      ({ g with bonusScore := g.bonusScore.add (JSNum.int 3) }).emit (Effect.sfxPlay Sound.bonus)
    else
      g.emit (Effect.sfxPlay Sound.gliss)
  { g with scoreHTML := some (g.score.add g.bonusScore) }

/-- The method `decLives()`. -/
def decLives (g : Game F) : Game F :=
  let g := { g with lives := g.lives.dec }
  let g := { g with livesHTML := some g.lives }
  let g :=
    if g.lives.isZero then
      ({ g with timers := g.timers ++ [1200] }).emit (Effect.setTimeoutGameOver 1200)
    else
      g
  g.emit (Effect.sfxPlay Sound.explosion)

/-- The moment the oldest pending timer fires: it runs the bound `gameOver`.
With no timer pending nothing happens. -/
def timerFires (g : Game F) : Game F :=
  match g.timers with
  | [] => g
  | _ :: rest => ({ g with timers := rest }).gameOver

/-! ## Input -/

/-- The method `keyDown(evt)`, given `evt.keyCode`. -/
def keyDown (g : Game F) (keyCode : Nat) : Game F :=
  match keyCode with
  | 32 => { g with spaceKey := true }
  | _ => g

/-- The method `keyUp(evt)`, given `evt.keyCode`. -/
def keyUp (g : Game F) (keyCode : Nat) : Game F :=
  match keyCode with
  | 32 => { g with spaceKey := false }
  | _ => g

/-- The method `mouseDown(evt)`. -/
def mouseDown (g : Game F) : Game F :=
  { g with spaceKey := true }

/-- The method `mouseUp(evt)`. -/
def mouseUp (g : Game F) : Game F :=
  { g with spaceKey := false }

/-! ## Camera and frame -/

variable [Zero F] [Add F] [OfNat F 6]

/-- The method `updateCamera()`, given the `plane.position` it reads. -/
def updateCamera (g : Game F) (planePosition : Vec3 F) : Game F :=
  let g := { g with cameraControllerPosition := planePosition }
  let g := { g with cameraControllerPosition := { g.cameraControllerPosition with y := 0 } }
  let g := { g with cameraTarget := planePosition }
  let g := { g with cameraTarget := { g.cameraTarget with z := g.cameraTarget.z + 6 } }
  g.emit (Effect.cameraLookAt g.cameraTarget)

/-- One callback from the obstacle field. -/
def callback (g : Game F) : Callback → Game F
  | Callback.incScore => g.incScore
  | Callback.decLives => g.decLives

/-- The part of `render()` after the loading check. -/
def renderFrame (g : Game F) (f : Frame F) : Game F :=
  let g := g.emit Effect.clockGetDelta
  let g := g.emit Effect.clockGetElapsedTime
  let g := g.emit (Effect.planeUpdate f.elapsed)
  let g :=
    if g.active then
      f.callbacks.foldl callback (g.emit (Effect.obstaclesUpdate f.planePosition f.delta))
    else
      g
  let g := g.updateCamera f.planePosition
  g.emit Effect.rendererRender

/-- The method `render()`. -/
def render (g : Game F) (f : Frame F) : Game F :=
  if g.loading then
    if f.planeReady && f.obstaclesReady then
      renderFrame { g with loading := false, loadingBarVisible := false } f
    else
      g
  else
    renderFrame g f

/-- The object as `constructor()` leaves it (`load()` included): the counters
are not assigned yet, the camera controller sits at the origin of a fresh
`Object3D` and the camera target at `(0, 0, 6)`. -/
def constructor : Game F :=
  { score := JSNum.undefined
    bonusScore := JSNum.undefined
    lives := JSNum.undefined
    active := false
    loading := true
    spaceKey := false
    loadingBarVisible := true
    cameraControllerPosition := { x := 0, y := 0, z := 0 }
    cameraTarget := { x := 0, y := 0, z := 6 }
    gameoverDisplay := Display.initial
    instructionsDisplay := Display.initial
    playBtnDisplay := Display.initial
    scoreHTML := none
    livesHTML := none
    timers := []
    log := [] }

end Game

/-! ## Sequences of calls -/

/-- A call that changes the session: the four session methods and the firing
of a pending timer. -/
inductive Call where
  | startGame
  | incScore
  | decLives
  | gameOver
  | timerFires
  deriving DecidableEq, Repr

/-- An event of the page for which `constructor()` registers a listener that
writes the control flag. -/
inductive InputEvent where
  | keydown (keyCode : Nat)
  | keyup (keyCode : Nat)
  | touchstart
  | touchend
  | mousedown
  | mouseup
  deriving DecidableEq, Repr

namespace Game

variable {F : Type}

/-- Perform one call. -/
def call (g : Game F) : Call → Game F
  | Call.startGame => g.startGame
  | Call.incScore => g.incScore
  | Call.decLives => g.decLives
  | Call.gameOver => g.gameOver
  | Call.timerFires => g.timerFires

/-- Perform a sequence of calls, first to last. -/
def run (g : Game F) (cs : List Call) : Game F :=
  cs.foldl call g

/-- The listener bound to each event in `constructor()`. -/
def dispatch (g : Game F) : InputEvent → Game F
  | InputEvent.keydown keyCode => g.keyDown keyCode
  | InputEvent.keyup keyCode => g.keyUp keyCode
  | InputEvent.touchstart => g.mouseDown
  | InputEvent.touchend => g.mouseUp
  | InputEvent.mousedown => g.mouseDown
  | InputEvent.mouseup => g.mouseUp

/-- Deliver a sequence of events, first to last. -/
def input (g : Game F) (evs : List InputEvent) : Game F :=
  evs.foldl dispatch g

variable [Zero F] [Add F] [OfNat F 6]

/-- Render a sequence of frames, first to last. -/
def frames (g : Game F) (fs : List (Frame F)) : Game F :=
  fs.foldl render g

end Game

/-! ## Vocabulary of the properties -/

/-- The test `x >= 0`. -/
def JSNum.geZero : JSNum → Bool
  | JSNum.int v => decide (0 ≤ v)
  | _ => false

/-- The number of `decLives` calls in a sequence since its most recent
`startGame` (since its beginning when it has none). -/
def decsSinceStart (cs : List Call) : Nat :=
  cs.foldl
    (fun k c =>
      match c with
      | Call.startGame => 0
      | Call.decLives => k + 1
      | _ => k)
    0

/-- What an event writes to the control flag, read off the description of the
input reducer: a press (`keydown` of key code 32, a mouse press, a touch
start) writes `true`, a release (`keyup` of key code 32, a mouse release, a
touch end) writes `false`, any other key event writes nothing. -/
def InputEvent.flagWrite : InputEvent → Option Bool
  | InputEvent.keydown keyCode => if keyCode = 32 then some true else none
  | InputEvent.keyup keyCode => if keyCode = 32 then some false else none
  | InputEvent.touchstart => some true
  | InputEvent.touchend => some false
  | InputEvent.mousedown => some true
  | InputEvent.mouseup => some false

/-- The calls that `render()` makes to advance and draw one frame. -/
def Effect.isFrameStep {F : Type} : Effect F → Bool
  | Effect.planeUpdate _ => true
  | Effect.obstaclesUpdate _ _ => true
  | Effect.cameraLookAt _ => true
  | Effect.rendererRender => true
  | _ => false

/-- Both collaborators report ready in this frame. -/
def Frame.bothReady {F : Type} (f : Frame F) : Bool :=
  f.planeReady && f.obstaclesReady

/-- A sample frame in which the obstacles are still loading. -/
def Frame.stillLoading : Frame Int :=
  { planeReady := true, obstaclesReady := false, delta := 1, elapsed := 5,
    planePosition := { x := 1, y := 2, z := 3 }, callbacks := [Callback.incScore] }

/-- A sample frame in which both collaborators are ready and the obstacle
field reports one passed obstacle. -/
def Frame.loaded : Frame Int :=
  { planeReady := true, obstaclesReady := true, delta := 1, elapsed := 5,
    planePosition := { x := 1, y := 2, z := 3 }, callbacks := [Callback.incScore] }

/-! ## Field lemmas -/

namespace Game

variable {F : Type}

@[simp] theorem emit_log (g : Game F) (e : Effect F) : (g.emit e).log = g.log ++ [e] := rfl
@[simp] theorem emit_score (g : Game F) (e : Effect F) : (g.emit e).score = g.score := rfl
@[simp] theorem emit_bonusScore (g : Game F) (e : Effect F) :
    (g.emit e).bonusScore = g.bonusScore := rfl
@[simp] theorem emit_lives (g : Game F) (e : Effect F) : (g.emit e).lives = g.lives := rfl
@[simp] theorem emit_active (g : Game F) (e : Effect F) : (g.emit e).active = g.active := rfl
@[simp] theorem emit_loading (g : Game F) (e : Effect F) : (g.emit e).loading = g.loading := rfl
@[simp] theorem emit_loadingBarVisible (g : Game F) (e : Effect F) :
    (g.emit e).loadingBarVisible = g.loadingBarVisible := rfl
@[simp] theorem emit_timers (g : Game F) (e : Effect F) : (g.emit e).timers = g.timers := rfl
@[simp] theorem emit_scoreHTML (g : Game F) (e : Effect F) :
    (g.emit e).scoreHTML = g.scoreHTML := rfl
@[simp] theorem emit_livesHTML (g : Game F) (e : Effect F) :
    (g.emit e).livesHTML = g.livesHTML := rfl

theorem incScore_score (g : Game F) : g.incScore.score = g.score.inc := by
  by_cases h : g.score.inc.mod3IsZero = true <;> simp [incScore, h, emit]

theorem incScore_bonusScore (g : Game F) :
    g.incScore.bonusScore =
      if g.score.inc.mod3IsZero then g.bonusScore.add (JSNum.int 3) else g.bonusScore := by
  by_cases h : g.score.inc.mod3IsZero = true <;> simp [incScore, h, emit]

theorem incScore_scoreHTML (g : Game F) :
    g.incScore.scoreHTML = some (g.incScore.score.add g.incScore.bonusScore) := by
  by_cases h : g.score.inc.mod3IsZero = true <;> simp [incScore, h, emit]

theorem mod3IsZero_natCast (n : Nat) :
    (JSNum.int (n : Int)).mod3IsZero = decide (n % 3 = 0) := by
  have h : (n : Int).tmod 3 = ((n % 3 : Nat) : Int) := by
    rw [Int.tmod_eq_emod (Int.ofNat_nonneg n) (by decide)]
    rfl
  simp only [JSNum.mod3IsZero, h]
  by_cases h0 : n % 3 = 0
  · rw [h0]; rfl
  · have h1 : ¬ ((n % 3 : Nat) : Int) = 0 := by exact_mod_cast h0
    rw [decide_eq_false h0]
    exact beq_eq_false_iff_ne.mpr h1

/-- After `startGame` and `n` score events the score is `n`, the bonus is
`3 * (n / 3)` and the display shows their sum. -/
theorem incScore_iterate (g : Game F) (n : Nat) :
    (incScore^[n] g.startGame).score = JSNum.int n ∧
    (incScore^[n] g.startGame).bonusScore = JSNum.int (3 * (n / 3) : Nat) ∧
    (incScore^[n] g.startGame).scoreHTML = some (JSNum.int (n + 3 * (n / 3) : Nat)) := by
  induction n with
  | zero => exact ⟨rfl, rfl, rfl⟩
  | succ k ih =>
    obtain ⟨hs, hb, _⟩ := ih
    rw [Function.iterate_succ_apply']
    have h1 : (incScore^[k] g.startGame).incScore.score = JSNum.int ((k + 1 : Nat) : Int) := by
      rw [incScore_score, hs]; simp [JSNum.inc]
    have h2 : (incScore^[k] g.startGame).incScore.bonusScore
        = JSNum.int ((3 * ((k + 1) / 3) : Nat) : Int) := by
      rw [incScore_bonusScore, hs, hb]
      have e : (JSNum.int (k : Int)).inc = JSNum.int ((k + 1 : Nat) : Int) := by simp [JSNum.inc]
      rw [e, mod3IsZero_natCast]
      by_cases h0 : (k + 1) % 3 = 0
      · simp only [h0, decide_True, if_true, JSNum.add]
        congr 1
        have : 3 * ((k + 1) / 3) = 3 * (k / 3) + 3 := by omega
        rw [this]; push_cast; ring
      · simp only [h0, decide_False, Bool.false_eq_true, if_false]
        congr 2
        omega
    refine ⟨h1, h2, ?_⟩
    rw [incScore_scoreHTML, h1, h2]
    simp [JSNum.add]

theorem decLives_lives (g : Game F) : g.decLives.lives = g.lives.dec := by
  by_cases h : g.lives.dec.isZero = true <;> simp [decLives, h, emit]

theorem decLives_timers (g : Game F) :
    g.decLives.timers = g.timers ++ (if g.lives.dec.isZero then [1200] else []) := by
  by_cases h : g.lives.dec.isZero = true <;> simp [decLives, h, emit]

theorem decLives_active (g : Game F) : g.decLives.active = g.active := by
  by_cases h : g.lives.dec.isZero = true <;> simp [decLives, h, emit]

theorem incScore_lives (g : Game F) : g.incScore.lives = g.lives := by
  by_cases h : g.score.inc.mod3IsZero = true <;> simp [incScore, h, emit]

theorem timerFires_lives (g : Game F) : g.timerFires.lives = g.lives := by
  unfold timerFires
  split <;> rfl

theorem isZero_int (v : Int) : (JSNum.int v).isZero = decide (v = 0) := rfl

/-- After `startGame` and `k` damage events: the lives, the pending timers
and the session flag. -/
theorem decLives_iterate (g : Game F) (k : Nat) :
    (decLives^[k] g.startGame).lives = JSNum.int (3 - k) ∧
    (decLives^[k] g.startGame).timers = g.timers ++ (if 3 ≤ k then [1200] else []) ∧
    (decLives^[k] g.startGame).active = true := by
  induction k with
  | zero => exact ⟨rfl, by simp [startGame, emit], rfl⟩
  | succ k ih =>
    obtain ⟨hl, ht, ha⟩ := ih
    rw [Function.iterate_succ_apply']
    refine ⟨?_, ?_, ?_⟩
    · rw [decLives_lives, hl]
      simp only [JSNum.dec]
      congr 1
      push_cast
      ring
    · rw [decLives_timers, hl, ht]
      simp only [JSNum.dec, isZero_int]
      by_cases h2 : k = 2
      · subst h2
        simp
      · have h3 : ¬ ((3 : Int) - k - 1 = 0) := by omega
        by_cases h4 : 3 ≤ k
        · have h5 : 3 ≤ k + 1 := by omega
          simp [h3, h4, h5]
        · have h5 : ¬ 3 ≤ k + 1 := by omega
          simp [h3, h4, h5]
    · rw [decLives_active, ha]

theorem run_snoc (g : Game F) (cs : List Call) (c : Call) :
    g.run (cs ++ [c]) = (g.run cs).call c := by
  simp [run, List.foldl_append]

theorem decsSinceStart_snoc (cs : List Call) (c : Call) :
    decsSinceStart (cs ++ [c]) =
      match c with
      | Call.startGame => 0
      | Call.decLives => decsSinceStart cs + 1
      | _ => decsSinceStart cs := by
  simp [decsSinceStart, List.foldl_append]

/-- Along any sequence of calls that follows a `startGame`, the lives are
three minus the damage events since the most recent `startGame`. -/
theorem run_lives (g : Game F) (cs : List Call) :
    (g.startGame.run cs).lives = JSNum.int (3 - (decsSinceStart cs : Nat)) := by
  induction cs using List.reverseRecOn with
  | nil => rfl
  | append_singleton cs c ih =>
    rw [run_snoc, decsSinceStart_snoc]
    cases c with
    | startGame => rfl
    | incScore => simpa [call, incScore_lives] using ih
    | decLives =>
      simp only [call, decLives_lives, ih, JSNum.dec]
      congr 1
      push_cast
      ring
    | gameOver => simpa [call, gameOver, emit] using ih
    | timerFires => simpa [call, timerFires_lives] using ih

theorem input_snoc (g : Game F) (evs : List InputEvent) (e : InputEvent) :
    g.input (evs ++ [e]) = (g.input evs).dispatch e := by
  simp [input, List.foldl_append]

theorem keyDown_spaceKey (g : Game F) (keyCode : Nat) :
    (g.keyDown keyCode).spaceKey = if keyCode = 32 then true else g.spaceKey := by
  unfold keyDown
  split
  · rfl
  · rename_i h
    have h32 : ¬ keyCode = 32 := fun e => h e
    rw [if_neg h32]

theorem keyUp_spaceKey (g : Game F) (keyCode : Nat) :
    (g.keyUp keyCode).spaceKey = if keyCode = 32 then false else g.spaceKey := by
  unfold keyUp
  split
  · rfl
  · rename_i h
    have h32 : ¬ keyCode = 32 := fun e => h e
    rw [if_neg h32]

/-- The control flag after a sequence of events is the last value written. -/
theorem input_spaceKey (g : Game F) (evs : List InputEvent) :
    (g.input evs).spaceKey =
      ((evs.filterMap InputEvent.flagWrite).getLast?).getD g.spaceKey := by
  induction evs using List.reverseRecOn with
  | nil => rfl
  | append_singleton evs e ih =>
    rw [input_snoc, List.filterMap_append]
    cases e with
    | keydown keyCode =>
      by_cases h : keyCode = 32
      · simp [dispatch, keyDown_spaceKey, InputEvent.flagWrite, h]
      · simp [dispatch, keyDown_spaceKey, InputEvent.flagWrite, h, ih]
    | keyup keyCode =>
      by_cases h : keyCode = 32
      · simp [dispatch, keyUp_spaceKey, InputEvent.flagWrite, h]
      · simp [dispatch, keyUp_spaceKey, InputEvent.flagWrite, h, ih]
    | touchstart => simp [dispatch, mouseDown, InputEvent.flagWrite]
    | touchend => simp [dispatch, mouseUp, InputEvent.flagWrite]
    | mousedown => simp [dispatch, mouseDown, InputEvent.flagWrite]
    | mouseup => simp [dispatch, mouseUp, InputEvent.flagWrite]

/-- A callback only appends to the log, and none of what it appends is a
frame step. -/
theorem callback_log (g : Game F) (c : Callback) :
    ∃ es, (g.callback c).log = g.log ++ es ∧ es.filter Effect.isFrameStep = [] := by
  cases c with
  | incScore =>
    by_cases h : g.score.inc.mod3IsZero = true
    · exact ⟨[Effect.sfxPlay Sound.bonus], by simp [callback, incScore, h, emit], rfl⟩
    · exact ⟨[Effect.sfxPlay Sound.gliss], by simp [callback, incScore, h, emit], rfl⟩
  | decLives =>
    by_cases h : g.lives.dec.isZero = true
    · exact ⟨[Effect.setTimeoutGameOver 1200, Effect.sfxPlay Sound.explosion],
        by simp [callback, decLives, h, emit], rfl⟩
    · exact ⟨[Effect.sfxPlay Sound.explosion], by simp [callback, decLives, h, emit], rfl⟩

theorem callback_loading (g : Game F) (c : Callback) :
    (g.callback c).loading = g.loading ∧
    (g.callback c).loadingBarVisible = g.loadingBarVisible := by
  cases c with
  | incScore =>
    by_cases h : g.score.inc.mod3IsZero = true <;> simp [callback, incScore, h, emit]
  | decLives =>
    by_cases h : g.lives.dec.isZero = true <;> simp [callback, decLives, h, emit]

theorem callbacks_log (cs : List Callback) (g : Game F) :
    ∃ es, (cs.foldl callback g).log = g.log ++ es ∧ es.filter Effect.isFrameStep = [] := by
  induction cs generalizing g with
  | nil => exact ⟨[], by simp, rfl⟩
  | cons c cs ih =>
    obtain ⟨e1, h1, f1⟩ := callback_log g c
    obtain ⟨e2, h2, f2⟩ := ih (g.callback c)
    refine ⟨e1 ++ e2, ?_, ?_⟩
    · rw [List.foldl_cons, h2, h1, List.append_assoc]
    · rw [List.filter_append, f1, f2]
      rfl

theorem callbacks_loading (cs : List Callback) (g : Game F) :
    (cs.foldl callback g).loading = g.loading ∧
    (cs.foldl callback g).loadingBarVisible = g.loadingBarVisible := by
  induction cs generalizing g with
  | nil => exact ⟨rfl, rfl⟩
  | cons c cs ih =>
    rw [List.foldl_cons]
    exact ⟨(ih _).1.trans (callback_loading g c).1, (ih _).2.trans (callback_loading g c).2⟩

section Frames

variable [Zero F] [Add F] [OfNat F 6]

theorem updateCamera_log (g : Game F) (p : Vec3 F) :
    (g.updateCamera p).log =
      g.log ++ [Effect.cameraLookAt { x := p.x, y := p.y, z := p.z + 6 }] := rfl

/-- What one frame past the loading check appends to the log. -/
theorem renderFrame_log (g : Game F) (f : Frame F) :
    ∃ es, (g.renderFrame f).log = g.log ++ es ∧
      es.filter Effect.isFrameStep =
        [Effect.planeUpdate f.elapsed] ++
          (if g.active then [Effect.obstaclesUpdate f.planePosition f.delta] else []) ++
          [Effect.cameraLookAt
              { x := f.planePosition.x, y := f.planePosition.y, z := f.planePosition.z + 6 },
            Effect.rendererRender] := by
  by_cases ha : g.active = true
  · obtain ⟨es, h1, h2⟩ := callbacks_log f.callbacks
      ((((g.emit Effect.clockGetDelta).emit Effect.clockGetElapsedTime).emit
        (Effect.planeUpdate f.elapsed)).emit
          (Effect.obstaclesUpdate f.planePosition f.delta))
    refine ⟨[Effect.clockGetDelta, Effect.clockGetElapsedTime, Effect.planeUpdate f.elapsed,
        Effect.obstaclesUpdate f.planePosition f.delta] ++ es ++
        [Effect.cameraLookAt
            { x := f.planePosition.x, y := f.planePosition.y, z := f.planePosition.z + 6 },
          Effect.rendererRender], ?_, ?_⟩
    · simp only [renderFrame, emit_active, ha, if_true, emit_log, updateCamera_log, h1]
      simp [List.append_assoc]
    · simp only [List.filter_append, h2, ha, if_true]
      rfl
  · refine ⟨[Effect.clockGetDelta, Effect.clockGetElapsedTime, Effect.planeUpdate f.elapsed,
        Effect.cameraLookAt
          { x := f.planePosition.x, y := f.planePosition.y, z := f.planePosition.z + 6 },
        Effect.rendererRender], ?_, ?_⟩
    · simp only [renderFrame, emit_active, ha, emit_log, updateCamera_log]
      simp [List.append_assoc]
    · simp only [ha]
      rfl

theorem updateCamera_loading (g : Game F) (p : Vec3 F) :
    (g.updateCamera p).loading = g.loading ∧
    (g.updateCamera p).loadingBarVisible = g.loadingBarVisible := ⟨rfl, rfl⟩

theorem renderFrame_loading (g : Game F) (f : Frame F) :
    (g.renderFrame f).loading = g.loading ∧
    (g.renderFrame f).loadingBarVisible = g.loadingBarVisible := by
  by_cases ha : g.active = true
  · have h := callbacks_loading f.callbacks
      ((((g.emit Effect.clockGetDelta).emit Effect.clockGetElapsedTime).emit
        (Effect.planeUpdate f.elapsed)).emit
          (Effect.obstaclesUpdate f.planePosition f.delta))
    have e : g.renderFrame f =
        ((f.callbacks.foldl callback
          ((((g.emit Effect.clockGetDelta).emit Effect.clockGetElapsedTime).emit
            (Effect.planeUpdate f.elapsed)).emit
              (Effect.obstaclesUpdate f.planePosition f.delta))).updateCamera
                f.planePosition).emit Effect.rendererRender := by
      simp only [renderFrame, emit_active, ha, if_true]
    rw [e]
    simp only [emit_loading, emit_loadingBarVisible, updateCamera_loading] at h ⊢
    exact h
  · have e : g.renderFrame f =
        ((((g.emit Effect.clockGetDelta).emit Effect.clockGetElapsedTime).emit
          (Effect.planeUpdate f.elapsed)).updateCamera
            f.planePosition).emit Effect.rendererRender := by
      simp only [renderFrame, emit_active, ha]
      rfl
    rw [e]
    simp only [emit_loading, emit_loadingBarVisible, updateCamera_loading, and_self]

theorem render_of_loaded (g : Game F) (f : Frame F) (hl : g.loading = false) :
    g.render f = g.renderFrame f := by
  simp [render, hl]

theorem render_of_closed (g : Game F) (f : Frame F) (hl : g.loading = true)
    (hr : f.bothReady = false) : g.render f = g := by
  unfold Frame.bothReady at hr
  simp [render, hl, hr]

theorem render_of_opening (g : Game F) (f : Frame F) (hl : g.loading = true)
    (hr : f.bothReady = true) :
    g.render f = renderFrame { g with loading := false, loadingBarVisible := false } f := by
  unfold Frame.bothReady at hr
  simp only [render, hl, hr, if_true]

theorem render_loading (g : Game F) (f : Frame F) :
    (g.render f).loading = (g.loading && !f.bothReady) ∧
    (g.render f).loadingBarVisible = (g.loadingBarVisible && !(g.loading && f.bothReady)) := by
  cases hl : g.loading with
  | false =>
    rw [render_of_loaded g f hl, (renderFrame_loading g f).1, (renderFrame_loading g f).2, hl]
    simp
  | true =>
    cases hr : f.bothReady with
    | false =>
      rw [render_of_closed g f hl hr, hl]
      simp
    | true =>
      rw [render_of_opening g f hl hr, (renderFrame_loading _ f).1, (renderFrame_loading _ f).2]
      simp

theorem frames_loading (fs : List (Frame F)) (g : Game F) :
    (g.frames fs).loading = (g.loading && !fs.any Frame.bothReady) := by
  induction fs generalizing g with
  | nil => simp [frames]
  | cons f fs ih =>
    have h : g.frames (f :: fs) = (g.render f).frames fs := rfl
    rw [h, ih, (render_loading g f).1, List.any_cons]
    cases g.loading <;> cases f.bothReady <;> simp

end Frames

end Game

/-! ## Session: score, lives, timers -/

section Session

variable {F : Type}

open Game

/-- C1: after `startGame` followed by `n` calls of `incScore`, the score is
`n` and the bonus is `3 * (n / 3)`; the next `incScore` raises the bonus by 3
when the incremented score `n + 1` is a multiple of 3 and by 0 otherwise, and
writes `score + bonusScore` to the score display.  After 2 score events the
display shows 2 with bonus 0; after the 3rd the score is 3, the bonus 3 and
the display shows 6. -/
theorem C1_score_bonus_display (g : Game F) (n : Nat) :
    (incScore^[n] g.startGame).score = JSNum.int n ∧
    (incScore^[n] g.startGame).bonusScore = JSNum.int (3 * (n / 3) : Nat) ∧
    (incScore^[n] g.startGame).incScore.bonusScore =
      JSNum.int ((3 * (n / 3) : Nat) + if (n + 1) % 3 = 0 then 3 else 0) ∧
    (incScore^[n] g.startGame).incScore.scoreHTML =
      some ((incScore^[n] g.startGame).incScore.score.add
        (incScore^[n] g.startGame).incScore.bonusScore) ∧
    (incScore^[n] g.startGame).scoreHTML = some (JSNum.int (n + 3 * (n / 3) : Nat)) ∧
    (incScore^[2] g.startGame).scoreHTML = some (JSNum.int 2) ∧
    (incScore^[2] g.startGame).bonusScore = JSNum.int 0 ∧
    (incScore^[3] g.startGame).score = JSNum.int 3 ∧
    (incScore^[3] g.startGame).bonusScore = JSNum.int 3 ∧
    (incScore^[3] g.startGame).scoreHTML = some (JSNum.int 6) := by
  obtain ⟨hs, hb, hd⟩ := incScore_iterate g n
  obtain ⟨_, hb1, _⟩ := incScore_iterate g (n + 1)
  obtain ⟨_, hb2, hd2⟩ := incScore_iterate g 2
  obtain ⟨hs3, hb3, hd3⟩ := incScore_iterate g 3
  rw [Function.iterate_succ_apply'] at hb1
  refine ⟨hs, hb, ?_, incScore_scoreHTML _, hd, hd2, hb2, hs3, hb3, hd3⟩
  rw [hb1]
  congr 1
  by_cases h0 : (n + 1) % 3 = 0
  · have : 3 * ((n + 1) / 3) = 3 * (n / 3) + 3 := by omega
    rw [this, if_pos h0]
    push_cast
    ring
  · have : 3 * ((n + 1) / 3) = 3 * (n / 3) := by omega
    rw [this, if_neg h0]
    push_cast
    ring

/-- C2 (amended): `decLives` has no guard.  Along any sequence of `startGame`,
`incScore`, `decLives`, `gameOver` calls and timer firings that follows a
`startGame`, the lives are three minus the number of `decLives` calls since
the most recent `startGame`; so `lives >= 0` holds exactly while at most three
such calls have been made, and a `decLives` call on lives `v` stores `v - 1`
(on 0 it stores -1). -/
theorem C2_lives_three_minus_damage (g : Game F) (cs : List Call) (v : Int) :
    (g.startGame.run cs).lives = JSNum.int (3 - (decsSinceStart cs : Nat)) ∧
    (g.startGame.run cs).lives.geZero = decide (decsSinceStart cs ≤ 3) ∧
    ({ g with lives := JSNum.int v }).decLives.lives = JSNum.int (v - 1) := by
  refine ⟨run_lives g cs, ?_, ?_⟩
  · rw [run_lives]
    simp only [JSNum.geZero]
    by_cases h : decsSinceStart cs ≤ 3
    · have : (0 : Int) ≤ 3 - (decsSinceStart cs : Nat) := by omega
      simp [h, this]
    · have : ¬ (0 : Int) ≤ 3 - (decsSinceStart cs : Nat) := by omega
      simp [h, this]
  · rw [decLives_lives]
    rfl

/-- C2 (counterexample): after `startGame`, the fourth `decLives` in a row, made
while lives is 0, stores -1. -/
theorem C2_fourth_damage_goes_negative :
    (((constructor : Game Int).startGame).run
        [Call.decLives, Call.decLives, Call.decLives]).lives = JSNum.int 0 ∧
    (((constructor : Game Int).startGame).run
        [Call.decLives, Call.decLives, Call.decLives, Call.decLives]).lives = JSNum.int (-1) ∧
    (((constructor : Game Int).startGame).run
        [Call.decLives, Call.decLives, Call.decLives, Call.decLives]).lives.geZero = false := by
  decide

/-- C3 (amended): `startGame` does not cancel a pending timer.  When a
game-over timer is pending, `startGame` keeps it pending, and its later firing
in the new session sets `active` to false while leaving score, bonus and
lives as they are then (0, 0 and 3 when it fires right after `startGame`). -/
theorem C3_stale_timer_ends_new_session (g : Game F) (h : g.timers ≠ []) :
    g.startGame.timers = g.timers ∧
    g.startGame.active = true ∧
    g.startGame.timerFires.active = false ∧
    g.startGame.timerFires.score = JSNum.int 0 ∧
    g.startGame.timerFires.bonusScore = JSNum.int 0 ∧
    g.startGame.timerFires.lives = JSNum.int 3 ∧
    g.timerFires.active = false ∧
    g.timerFires.score = g.score ∧
    g.timerFires.bonusScore = g.bonusScore ∧
    g.timerFires.lives = g.lives := by
  have ht : g.startGame.timers = g.timers := rfl
  obtain ⟨d, rest, hq⟩ := List.exists_cons_of_ne_nil h
  refine ⟨rfl, rfl, ?_, ?_, ?_, ?_, ?_, ?_, ?_, ?_⟩ <;>
    simp [timerFires, ht, hq, gameOver, emit, startGame]

/-- C3 (witness): the state after `startGame` and three damage events has the
timer pending. -/
theorem C3_stale_timer_ends_new_session_witness :
    ((constructor : Game Int).startGame.run
        [Call.decLives, Call.decLives, Call.decLives]).timers ≠ [] ∧
    ((constructor : Game Int).startGame.run
        [Call.decLives, Call.decLives, Call.decLives]).startGame.timerFires.active = false :=
  ⟨by decide,
    (C3_stale_timer_ends_new_session
      ((constructor : Game Int).startGame.run [Call.decLives, Call.decLives, Call.decLives])
      (by decide)).2.2.1⟩

/-- C3 (counterexample): start, three damage events (the timer is scheduled),
start again before it fires: the new session is active with 0 / 0 / 3, and the
firing of the old timer makes it inactive. -/
theorem C3_old_timer_deactivates_new_session :
    ((constructor : Game Int).run
        [Call.startGame, Call.decLives, Call.decLives, Call.decLives,
          Call.startGame]).active = true ∧
    ((constructor : Game Int).run
        [Call.startGame, Call.decLives, Call.decLives, Call.decLives,
          Call.startGame]).timers = [1200] ∧
    ((constructor : Game Int).run
        [Call.startGame, Call.decLives, Call.decLives, Call.decLives,
          Call.startGame, Call.timerFires]).active = false := by
  decide

/-- C4: in a run of `k` calls of `decLives` after `startGame`, the lives are
`3 - k`, the timers scheduled so far are one timer of 1200 ms when `k >= 3`
and none before, the session is still active, and the next call schedules a
timer (of 1200 ms) exactly when it brings the lives to 0. -/
theorem C4_one_timer_per_session (g : Game F) (k : Nat) :
    (decLives^[k] g.startGame).lives = JSNum.int (3 - k) ∧
    (decLives^[k] g.startGame).timers = g.startGame.timers ++ (if 3 ≤ k then [1200] else []) ∧
    (decLives^[k] g.startGame).active = true ∧
    (decLives^[k] g.startGame).decLives.timers =
      (decLives^[k] g.startGame).timers ++
        (if (decLives^[k] g.startGame).decLives.lives = JSNum.int 0 then [1200] else []) ∧
    (decLives^[k] g.startGame).decLives.active = true := by
  obtain ⟨hl, ht, ha⟩ := decLives_iterate g k
  refine ⟨hl, ht, ha, ?_, ?_⟩
  · rw [decLives_timers, decLives_lives]
    cases (decLives^[k] g.startGame).lives <;> simp [JSNum.dec, JSNum.isZero]
  · rw [decLives_active, ha]

/-- C5: whatever the state before, `startGame` sets score 0, bonus 0, lives 3
and `active`, writes 0 to the score display and 3 to the lives display, and
calls `reset` on the plane and on the obstacles (then starts the engine
sound). -/
theorem C5_startGame_resets (g : Game F) :
    g.startGame.score = JSNum.int 0 ∧
    g.startGame.bonusScore = JSNum.int 0 ∧
    g.startGame.lives = JSNum.int 3 ∧
    g.startGame.active = true ∧
    g.startGame.scoreHTML = some (JSNum.int 0) ∧
    g.startGame.livesHTML = some (JSNum.int 3) ∧
    g.startGame.log =
      g.log ++ [Effect.planeReset, Effect.obstaclesReset, Effect.sfxPlay Sound.engine] := by
  refine ⟨rfl, rfl, rfl, rfl, rfl, rfl, ?_⟩
  simp [startGame, emit]

/-- C8: the control flag is last-writer-wins.  After any sequence of key,
mouse and touch events the flag holds what the most recent flag-writing event
wrote (`true` for a press, `false` for a release); events that write nothing
(key events of another key code) are skipped, and with no flag-writing event
the flag keeps the value it had, which is `false` after `constructor()`. -/
theorem C8_control_flag_last_writer (g : Game F) (evs : List InputEvent)
    [Zero F] [OfNat F 6] :
    (g.input evs).spaceKey =
      ((evs.filterMap InputEvent.flagWrite).getLast?).getD g.spaceKey ∧
    ((constructor : Game F).input evs).spaceKey =
      ((evs.filterMap InputEvent.flagWrite).getLast?).getD false :=
  ⟨input_spaceKey g evs, input_spaceKey constructor evs⟩

end Session

/-! ## Frames: readiness gate, step order, camera -/

section Frames

variable {F : Type} [Zero F] [Add F] [OfNat F 6]

open Game

/-- C6: while the readiness gate is closed (`loading` is true and the two
ready flags are not both true) `render` returns the state it was given: no
call on the plane, the obstacles, the camera, the renderer or the clock is
logged, `loading` stays true and the loading bar keeps its visibility. -/
theorem C6_closed_gate_frame_is_noop (g : Game F) (f : Frame F)
    (hl : g.loading = true) (hr : ¬ (f.planeReady = true ∧ f.obstaclesReady = true)) :
    g.render f = g ∧
    (g.render f).log = g.log ∧
    (g.render f).loading = true ∧
    (g.render f).loadingBarVisible = g.loadingBarVisible := by
  have hb : f.bothReady = false := by
    unfold Frame.bothReady
    cases hp : f.planeReady <;> cases ho : f.obstaclesReady <;> simp_all
  have h := render_of_closed g f hl hb
  rw [h]
  exact ⟨rfl, rfl, hl, rfl⟩

/-- C6 (witness): the freshly constructed game with the plane ready and the
obstacles not ready. -/
theorem C6_closed_gate_frame_is_noop_witness :
    (constructor : Game Int).loading = true ∧
    ¬ (Frame.stillLoading.planeReady = true ∧ Frame.stillLoading.obstaclesReady = true) ∧
    (constructor : Game Int).render Frame.stillLoading = constructor :=
  ⟨rfl, by decide,
    (C6_closed_gate_frame_is_noop (constructor : Game Int) Frame.stillLoading
      rfl (by decide)).1⟩

/-- C7: for every plane position `(x, y, z)` and every state of the game,
active or not, `updateCamera` puts the camera controller at `(x, 0, z)` and
the camera target at `(x, y, z + 6)`, and points the camera at that target. -/
theorem C7_camera_follows_plane (g : Game F) (p : Vec3 F) :
    (g.updateCamera p).cameraControllerPosition = { x := p.x, y := 0, z := p.z } ∧
    (g.updateCamera p).cameraTarget = { x := p.x, y := p.y, z := p.z + 6 } ∧
    (g.updateCamera p).log =
      g.log ++ [Effect.cameraLookAt { x := p.x, y := p.y, z := p.z + 6 }] ∧
    (g.updateCamera p).active = g.active :=
  ⟨rfl, rfl, rfl, rfl⟩

/-- C9: with the readiness gate open (`loading` false, or both ready flags
true), what `render` appends to the log contains, as its frame steps and in
this order: `plane.update(elapsed)` once, `obstacles.update(plane.position,
delta)` once exactly when `active` is true, the `lookAt` of `updateCamera`
once, `renderer.render` once. -/
theorem C9_open_gate_frame_steps (g : Game F) (f : Frame F)
    (h : g.loading = false ∨ (f.planeReady = true ∧ f.obstaclesReady = true)) :
    ∃ es, (g.render f).log = g.log ++ es ∧
      es.filter Effect.isFrameStep =
        [Effect.planeUpdate f.elapsed] ++
          (if g.active then [Effect.obstaclesUpdate f.planePosition f.delta] else []) ++
          [Effect.cameraLookAt
              { x := f.planePosition.x, y := f.planePosition.y, z := f.planePosition.z + 6 },
            Effect.rendererRender] := by
  cases hl : g.loading with
  | false =>
    rw [render_of_loaded g f hl]
    exact renderFrame_log g f
  | true =>
    have hb : f.bothReady = true := by
      rcases h with h | ⟨hp, ho⟩
      · rw [hl] at h
        cases h
      · simp [Frame.bothReady, hp, ho]
    rw [render_of_opening g f hl hb]
    exact renderFrame_log { g with loading := false, loadingBarVisible := false } f

/-- C9 (witness): the first frame after both collaborators became ready, in a
started session. -/
theorem C9_open_gate_frame_steps_witness :
    ((constructor : Game Int).startGame.loading = false ∨
      (Frame.loaded.planeReady = true ∧ Frame.loaded.obstaclesReady = true)) ∧
    ∃ es,
      ((constructor : Game Int).startGame.render Frame.loaded).log
        = (constructor : Game Int).startGame.log ++ es ∧
      es.filter Effect.isFrameStep =
        ([Effect.planeUpdate 5, Effect.obstaclesUpdate { x := 1, y := 2, z := 3 } 1,
          Effect.cameraLookAt { x := 1, y := 2, z := 3 + 6 }, Effect.rendererRender] :
            List (Effect Int)) :=
  ⟨Or.inr ⟨rfl, rfl⟩,
    C9_open_gate_frame_steps (constructor : Game Int).startGame Frame.loaded
      (Or.inr ⟨rfl, rfl⟩)⟩

/-- C10: the readiness gate opens once and never closes.  After any sequence
of frames `loading` is true exactly when it was true before and no frame of
the sequence had both ready flags true; a single `render` clears `loading`
exactly when both flags are true, hides the loading bar in that same call
when the gate was still closed, and leaves a false `loading` false whatever
the flags are.  After `constructor()` `loading` is true and the bar shown. -/
theorem C10_gate_opens_once (g : Game F) (f : Frame F) (fs : List (Frame F)) :
    (g.frames fs).loading = (g.loading && !fs.any Frame.bothReady) ∧
    (g.render f).loading = (g.loading && !f.bothReady) ∧
    (g.render f).loadingBarVisible = (g.loadingBarVisible && !(g.loading && f.bothReady)) ∧
    (({ g with loading := false }).render f).loading = false ∧
    ((constructor : Game F).frames fs).loading = !fs.any Frame.bothReady ∧
    (constructor : Game F).loadingBarVisible = true := by
  refine ⟨frames_loading fs g, (render_loading g f).1, (render_loading g f).2, ?_, ?_, rfl⟩
  · rw [(render_loading _ f).1]
    rfl
  · rw [frames_loading]
    rfl

end Frames

end HappyPlanes
